import Mathlib

/-!
Shallow embedding of the API-Pizzaria order-management backend
(`models.py`, `auth_routes.py`, `order_routes.py`, `main.py`).

The persistent store is modelled as an explicit `DB` value holding the three
tables (`usuarios`, `pedidos`, `itens_pedido`) together with the
autoincrement counters.  Each FastAPI handler becomes a pure function from
the database (and the authenticated user, where the handler takes one) to
the new database paired with an `Except`-style outcome; a raised
`HTTPException` before `session.commit()` leaves the database unchanged,
which the model reflects by returning the input database on every error.
Prices (`Float` columns in the source) are modelled as rationals.
-/

/-- A row of the `usuarios` table (`models.py`, class `Usuario`). -/
structure Usuario where
  id : Int
  nome : String
  email : String
  senha : String
  ativo : Bool
  admin : Bool
deriving DecidableEq, Repr

/-- A row of the `pedidos` table (`models.py`, class `Pedido`). -/
structure Pedido where
  id : Int
  status : String
  usuario : Int
  preco : ℚ
deriving DecidableEq, Repr

/-- A row of the `itens_pedido` table (`models.py`, class `ItemPedido`). -/
structure ItemPedido where
  id : Int
  quantidade : Int
  sabor : String
  tamanho : String
  preco_unitario : ℚ
  pedido : Int
deriving DecidableEq, Repr

/-- The relational store: three tables plus the autoincrement counters that
SQLite assigns to primary keys. -/
structure DB where
  usuarios : List Usuario
  pedidos : List Pedido
  itens : List ItemPedido
  nextUsuarioId : Int
  nextPedidoId : Int
  nextItemId : Int
deriving DecidableEq, Repr

/-- Errors surfaced by the handlers: the two `HTTPException`s raised in
`order_routes.py` / `auth_routes.py`, plus `noneError` for the unhandled
`AttributeError` that dereferencing a missing (None) query result raises. -/
inductive Err where
  | notFound
  | unauthorized
  | duplicateEmail
  | noneError
deriving DecidableEq, Repr

/-- The ORM relationship `Pedido.itens`: the items whose `pedido` foreign key
points at the given order id (`models.py` line 42). -/
def pedidoItens (db : DB) (pid : Int) : List ItemPedido :=
  db.itens.filter (fun i => i.pedido == pid)

/-- The sum `sum(item.preco_unitario * item.quantidade for item in itens)`
from `Pedido.calcular_preco` (`models.py` lines 49-54). -/
def somaItens (l : List ItemPedido) : ℚ :=
  (l.map (fun i => i.preco_unitario * (i.quantidade : ℚ))).sum

/-- `pedido.calcular_preco()` followed by `session.commit()`: store into the
order row with the given id the sum over its current items. -/
def calcular_preco (db : DB) (pid : Int) : DB :=
  { db with
    pedidos := db.pedidos.map (fun p =>
      if p.id == pid then { p with preco := somaItens (pedidoItens db pid) } else p) }

/-- `pedido.status = s` followed by `session.commit()`. -/
def atualizarStatus (db : DB) (pid : Int) (s : String) : DB :=
  { db with
    pedidos := db.pedidos.map (fun p =>
      if p.id == pid then { p with status := s } else p) }

/-- Request body of `/pedidos/adicionar-item` (`schemas.ItemPedidoSchema`). -/
structure ItemPedidoSchema where
  quantidade : Int
  sabor : String
  tamanho : String
  preco_unitario : ℚ
deriving DecidableEq, Repr

/-- Handler `criar_pedido` (`order_routes.py` lines 26-52): builds
`Pedido(usuario=pedido_schema.usuario)` — status `"PENDENTE"`, price 0 —
inserts it and commits, answering with the new order id.  No check against
the authenticated caller and no check that the user id exists. -/
def criar_pedido (db : DB) (usuario_schema_id : Int) : DB × Int :=
  let novo : Pedido :=
    { id := db.nextPedidoId, status := "PENDENTE", usuario := usuario_schema_id, preco := 0 }
  ({ db with pedidos := db.pedidos ++ [novo], nextPedidoId := db.nextPedidoId + 1 }, novo.id)

/-- Handler `cancelar_pedido` (`order_routes.py` lines 54-89): 400 if the
order is absent, 401 if the caller is neither admin nor owner, otherwise set
the status to `"CANCELADO"`, commit, and answer with the updated order. -/
def cancelar_pedido (db : DB) (id_pedido : Int) (usuario : Usuario) :
    DB × Except Err Pedido :=
  match db.pedidos.find? (fun p => p.id == id_pedido) with
  | none => (db, .error .notFound)
  | some pedido =>
    if !usuario.admin && usuario.id != pedido.usuario then
      (db, .error .unauthorized)
    else
      (atualizarStatus db id_pedido "CANCELADO", .ok { pedido with status := "CANCELADO" })

/-- Handler `finalizar_pedido` (`order_routes.py` lines 209-245): same shape
as `cancelar_pedido` with status `"FINALIZADO"`. -/
def finalizar_pedido (db : DB) (id_pedido : Int) (usuario : Usuario) :
    DB × Except Err Pedido :=
  match db.pedidos.find? (fun p => p.id == id_pedido) with
  | none => (db, .error .notFound)
  | some pedido =>
    if !usuario.admin && usuario.id != pedido.usuario then
      (db, .error .unauthorized)
    else
      (atualizarStatus db id_pedido "FINALIZADO", .ok { pedido with status := "FINALIZADO" })

/-- Handler `visualizar_pedido` (`order_routes.py` lines 247-281): read-only;
404-style 400 if the order is absent, 401 if the caller is neither admin nor
owner, otherwise the item count and the order. -/
def visualizar_pedido (db : DB) (id_pedido : Int) (usuario : Usuario) :
    Except Err (Nat × Pedido) :=
  match db.pedidos.find? (fun p => p.id == id_pedido) with
  | none => .error .notFound
  | some pedido =>
    if !usuario.admin && usuario.id != pedido.usuario then
      .error .unauthorized
    else
      .ok ((pedidoItens db pedido.id).length, pedido)

/-- Handler `adicionar_item_pedido` (`order_routes.py` lines 121-166): 400 if
the order is absent, 401 if the caller is neither admin nor owner; otherwise
insert the new `ItemPedido`, recompute the order's price over its current
items (the freshly added row included, via autoflush), commit, and answer
with the item id and the new order price. -/
def adicionar_item_pedido (db : DB) (id_pedido : Int) (s : ItemPedidoSchema)
    (usuario : Usuario) : DB × Except Err (Int × ℚ) :=
  match db.pedidos.find? (fun p => p.id == id_pedido) with
  | none => (db, .error .notFound)
  | some pedido =>
    if !usuario.admin && usuario.id != pedido.usuario then
      (db, .error .unauthorized)
    else
      let item : ItemPedido :=
        { id := db.nextItemId, quantidade := s.quantidade, sabor := s.sabor,
          tamanho := s.tamanho, preco_unitario := s.preco_unitario, pedido := id_pedido }
      let db1 : DB := { db with itens := db.itens ++ [item], nextItemId := db.nextItemId + 1 }
      (calcular_preco db1 id_pedido, .ok (item.id, somaItens (pedidoItens db1 id_pedido)))

/-- Handler `remover_item_pedido` (`order_routes.py` lines 168-207).  Note
line 195 of the source: the order is queried by the ITEM's id
(`Pedido.id == id_item_pedido`), not by the item's `pedido` foreign key.
If the item is absent: 400.  If the item exists but no order carries the
item's id, the handler dereferences `None` (`pedido.usuario` or
`pedido.calcular_preco()`) and dies with an unhandled `AttributeError`
before any commit — modelled as `noneError` with the store unchanged.
Otherwise: 401 for a caller who is neither admin nor owner OF THE QUERIED
ORDER; else delete the item, recompute the QUERIED order's price, commit,
and answer with that order's item count and row. -/
def remover_item_pedido (db : DB) (id_item_pedido : Int) (usuario : Usuario) :
    DB × Except Err (Nat × Pedido) :=
  match db.itens.find? (fun i => i.id == id_item_pedido) with
  | none => (db, .error .notFound)
  | some _ =>
    match db.pedidos.find? (fun p => p.id == id_item_pedido) with
    | none => (db, .error .noneError)
    | some pedido =>
      if !usuario.admin && usuario.id != pedido.usuario then
        (db, .error .unauthorized)
      else
        let db1 : DB := { db with itens := db.itens.eraseP (fun i => i.id == id_item_pedido) }
        (calcular_preco db1 pedido.id,
         .ok ((pedidoItens db1 pedido.id).length,
              { pedido with preco := somaItens (pedidoItens db1 pedido.id) }))

/-- `autenticar_usuario` (`auth_routes.py` lines 21-27), parameterised by the
bcrypt verifier.  Both failure branches of the source return the same value
(`False`), modelled as `none`; a match returns the user row. -/
def autenticar_usuario (verify : String → String → Bool) (db : DB)
    (email senha : String) : Option Usuario :=
  match db.usuarios.find? (fun u => u.email == email) with
  | none => none
  | some usuario =>
    if !(verify senha usuario.senha) then none else some usuario

/-- Handler `criar_conta` (`auth_routes.py` lines 44-75), parameterised by
the bcrypt hash.  400 if ANY row with the given email exists (the query has
no `ativo` filter); otherwise insert the user with the hashed password. -/
def criar_conta (hashSenha : String → String) (db : DB)
    (nome email senha : String) (ativo admin : Bool) : DB × Except Err Unit :=
  match db.usuarios.find? (fun u => u.email == email) with
  | some _ => (db, .error .duplicateEmail)
  | none =>
    let novo : Usuario :=
      { id := db.nextUsuarioId, nome := nome, email := email,
        senha := hashSenha senha, ativo := ativo, admin := admin }
    ({ db with usuarios := db.usuarios ++ [novo], nextUsuarioId := db.nextUsuarioId + 1 },
     .ok ())

/-- Process-wide token configuration fixed at startup (`main.py`). -/
structure TokenCfg where
  secret_key : String
  algorithm : String
deriving DecidableEq, Repr

/-- A decoded JWT as built by `criar_token`: the claims dictionary plus the
key/algorithm it was signed with. -/
structure Token where
  sub : String
  exp : Int
  key : String
  alg : String
deriving DecidableEq, Repr

/-- `criar_token` (`auth_routes.py` lines 11-18): claims
`{"sub": str(id_usuario), "exp": now + duracao}` signed with the process
secret and algorithm.  Time is in seconds since the epoch. -/
def criar_token (cfg : TokenCfg) (id_usuario : Int) (agora duracao : Int) : Token :=
  { sub := toString id_usuario, exp := agora + duracao,
    key := cfg.secret_key, alg := cfg.algorithm }

/-- Token-validation errors (spec section 4.1). -/
inductive AuthError where
  | invalidCredential
  | expired
deriving DecidableEq, Repr

/-- Modelled from the spec: `validate(token) -> user_id | AuthError` of the
Token Service (spec section 4.1); the implementing `verificar_token` lives in
`dependencies.py`, which is not among the provided source files.  Verifies
the signature (key and algorithm), fails with `Expired` when current time is
at or past the embedded expiration, and otherwise yields the subject. -/
def validar_token (cfg : TokenCfg) (t : Token) (agora : Int) : Except AuthError String :=
  if t.key != cfg.secret_key || t.alg != cfg.algorithm then .error .invalidCredential
  else if t.exp ≤ agora then .error .expired
  else .ok t.sub

/-- The pricing invariant of spec section 3: every order's stored price is
the sum over its current items of quantity times unit price. -/
def Consistente (db : DB) : Prop :=
  ∀ p ∈ db.pedidos, p.preco = somaItens (pedidoItens db p.id)

/-- The customer of the spec's worked example (user 5), not an admin. -/
def u5 : Usuario :=
  { id := 5, nome := "cliente", email := "u5@pizza", senha := "h", ativo := true, admin := false }

/-- C1: the spec's worked scenario.  Starting from an empty store, create an
order for user 5, add an item with quantity 2 and unit price 9.90 (total
19.80), add an item with quantity 1 and unit price 5.00 (total 24.80), then
remove the first item: the final total is 5.00 and the remove operation
reports 1 remaining item. -/
theorem c1_cenario_exemplo :
    let db0 : DB := { usuarios := [u5], pedidos := [], itens := [],
                      nextUsuarioId := 6, nextPedidoId := 1, nextItemId := 1 }
    let r1 := criar_pedido db0 5
    let r2 := adicionar_item_pedido r1.1 r1.2
      { quantidade := 2, sabor := "mussarela", tamanho := "grande", preco_unitario := 9.9 } u5
    let r3 := adicionar_item_pedido r2.1 r1.2
      { quantidade := 1, sabor := "calabresa", tamanho := "media", preco_unitario := 5 } u5
    let r4 := remover_item_pedido r3.1 1 u5
    r2.2 = .ok (1, (19.8 : ℚ)) ∧ r3.2 = .ok (2, (24.8 : ℚ)) ∧
    (∃ p4 : Pedido, r4.2 = .ok (1, p4) ∧ p4.preco = 5) := by
  simp only [criar_pedido, adicionar_item_pedido, remover_item_pedido, calcular_preco,
    pedidoItens, somaItens, atualizarStatus, List.find?, List.eraseP, List.filter,
    List.map, List.sum]
  norm_num [u5]

/-- C9: whenever an item with id `k` exists but no order with id `k` exists,
`remover_item_pedido` — which queries the order by the item's id rather than
by the item's parent-order id — dereferences a missing order and fails with
the unhandled error, which is neither `notFound` nor `unauthorized`, for
every caller. -/
theorem c9_pedido_consultado_pelo_id_do_item
    (db : DB) (k : Int) (usuario : Usuario)
    (hitem : (db.itens.find? (fun i => i.id == k)).isSome = true)
    (hped : db.pedidos.find? (fun p => p.id == k) = none) :
    remover_item_pedido db k usuario = (db, .error .noneError) ∧
    Err.noneError ≠ Err.notFound ∧ Err.noneError ≠ Err.unauthorized := by
  refine ⟨?_, by simp, by simp⟩
  obtain ⟨item, hfind⟩ := Option.isSome_iff_exists.mp hitem
  simp [remover_item_pedido, hfind, hped]

/-- Witness for C9: a store holding one item with id 3 whose parent order is
order 1, and no order with id 3. -/
theorem c9_witness :
    remover_item_pedido
      { usuarios := [u5],
        pedidos := [{ id := 1, status := "PENDENTE", usuario := 5, preco := 5 }],
        itens := [{ id := 3, quantidade := 1, sabor := "portuguesa", tamanho := "media",
                    preco_unitario := 5, pedido := 1 }],
        nextUsuarioId := 6, nextPedidoId := 2, nextItemId := 4 } 3 u5
      = ({ usuarios := [u5],
           pedidos := [{ id := 1, status := "PENDENTE", usuario := 5, preco := 5 }],
           itens := [{ id := 3, quantidade := 1, sabor := "portuguesa", tamanho := "media",
                       preco_unitario := 5, pedido := 1 }],
           nextUsuarioId := 6, nextPedidoId := 2, nextItemId := 4 }, .error .noneError) :=
  (c9_pedido_consultado_pelo_id_do_item _ 3 u5 (by rfl) (by rfl)).1

/-- C10: `criar_pedido` takes the owner id straight from the request body —
it never consults the caller's identity nor the user table — and succeeds
for EVERY integer `x`, appending a fresh order with status `"PENDENTE"`,
price 0, owner `x` and no items.  The only hypothesis is that no stray item
already points at the fresh autoincrement id. -/
theorem c10_criar_pedido_sem_verificacao
    (db : DB) (x : Int)
    (hfresh : ∀ i ∈ db.itens, i.pedido ≠ db.nextPedidoId) :
    ∃ novo : Pedido,
      (criar_pedido db x).1.pedidos = db.pedidos ++ [novo] ∧
      (criar_pedido db x).2 = novo.id ∧
      novo.status = "PENDENTE" ∧ novo.preco = 0 ∧ novo.usuario = x ∧
      pedidoItens (criar_pedido db x).1 novo.id = [] := by
  refine ⟨{ id := db.nextPedidoId, status := "PENDENTE", usuario := x, preco := 0 },
    ?_, rfl, rfl, rfl, rfl, ?_⟩
  · simp [criar_pedido]
  · simp only [criar_pedido, pedidoItens]
    rw [List.filter_eq_nil_iff]
    intro i hi
    simpa using hfresh i hi

/-- Witness for C10: creating an order for the arbitrary (even nonexistent,
even negative) user id -7 in a store whose only item points at order 1. -/
theorem c10_witness :
    ∃ novo : Pedido,
      (criar_pedido
        { usuarios := [u5],
          pedidos := [{ id := 1, status := "PENDENTE", usuario := 5, preco := 5 }],
          itens := [{ id := 1, quantidade := 1, sabor := "portuguesa", tamanho := "media",
                      preco_unitario := 5, pedido := 1 }],
          nextUsuarioId := 6, nextPedidoId := 2, nextItemId := 2 } (-7)).1.pedidos
        = [{ id := 1, status := "PENDENTE", usuario := 5, preco := 5 }] ++ [novo] ∧
      (criar_pedido
        { usuarios := [u5],
          pedidos := [{ id := 1, status := "PENDENTE", usuario := 5, preco := 5 }],
          itens := [{ id := 1, quantidade := 1, sabor := "portuguesa", tamanho := "media",
                      preco_unitario := 5, pedido := 1 }],
          nextUsuarioId := 6, nextPedidoId := 2, nextItemId := 2 } (-7)).2 = novo.id ∧
      novo.status = "PENDENTE" ∧ novo.preco = 0 ∧ novo.usuario = -7 ∧
      pedidoItens (criar_pedido
        { usuarios := [u5],
          pedidos := [{ id := 1, status := "PENDENTE", usuario := 5, preco := 5 }],
          itens := [{ id := 1, quantidade := 1, sabor := "portuguesa", tamanho := "media",
                      preco_unitario := 5, pedido := 1 }],
          nextUsuarioId := 6, nextPedidoId := 2, nextItemId := 2 } (-7)).1 novo.id = [] :=
  c10_criar_pedido_sem_verificacao _ (-7) (by decide)

/-- The denial condition `not usuario.admin and usuario.id != pedido.usuario`
is false exactly when the caller is an admin or the order's owner. -/
lemma cond_negacao_false (u : Usuario) (p : Pedido)
    (h : u.admin = true ∨ u.id = p.usuario) :
    (!u.admin && u.id != p.usuario) = false := by
  rcases h with h | h <;> simp [h]

/-- The denial condition holds for a non-admin caller who is not the owner. -/
lemma cond_negacao_true (u : Usuario) (p : Pedido)
    (h1 : u.admin = false) (h2 : u.id ≠ p.usuario) :
    (!u.admin && u.id != p.usuario) = true := by
  simp [h1, h2]

/-- A non-admin non-owner for witnesses. -/
def u9 : Usuario :=
  { id := 9, nome := "intruso", email := "u9@pizza", senha := "h9", ativo := true, admin := false }

/-- An admin for witnesses. -/
def adm : Usuario :=
  { id := 2, nome := "gerente", email := "adm@pizza", senha := "ha", ativo := true, admin := true }

/-- C4: for cancel, finalize, add-item and single-order view — (i) if no
order with the id exists, every caller gets `notFound` (so the existence
check takes precedence over the authorization check); (ii) if the order
exists and the caller is neither admin nor its owner, the caller gets
`unauthorized` and the store is unchanged; (iii) the owner and any admin
succeed. -/
theorem c4_autorizacao_pedido (db : DB) (idp : Int) (u : Usuario) :
    (db.pedidos.find? (fun p => p.id == idp) = none →
      cancelar_pedido db idp u = (db, .error .notFound) ∧
      finalizar_pedido db idp u = (db, .error .notFound) ∧
      (∀ s, adicionar_item_pedido db idp s u = (db, .error .notFound)) ∧
      visualizar_pedido db idp u = .error .notFound) ∧
    (∀ pedido, db.pedidos.find? (fun p => p.id == idp) = some pedido →
      (u.admin = false → u.id ≠ pedido.usuario →
        cancelar_pedido db idp u = (db, .error .unauthorized) ∧
        finalizar_pedido db idp u = (db, .error .unauthorized) ∧
        (∀ s, adicionar_item_pedido db idp s u = (db, .error .unauthorized)) ∧
        visualizar_pedido db idp u = .error .unauthorized) ∧
      (u.admin = true ∨ u.id = pedido.usuario →
        (∃ r, (cancelar_pedido db idp u).2 = .ok r) ∧
        (∃ r, (finalizar_pedido db idp u).2 = .ok r) ∧
        (∀ s, ∃ r, (adicionar_item_pedido db idp s u).2 = .ok r) ∧
        (∃ r, visualizar_pedido db idp u = .ok r))) := by
  constructor
  · intro hnone
    refine ⟨?_, ?_, fun s => ?_, ?_⟩ <;>
      simp [cancelar_pedido, finalizar_pedido, adicionar_item_pedido, visualizar_pedido, hnone]
  · intro pedido hfind
    constructor
    · intro h1 h2
      refine ⟨?_, ?_, fun s => ?_, ?_⟩ <;>
        simp [cancelar_pedido, finalizar_pedido, adicionar_item_pedido, visualizar_pedido,
          hfind, cond_negacao_true u pedido h1 h2]
    · intro hauth
      have hc := cond_negacao_false u pedido hauth
      refine ⟨?_, ?_, fun s => ?_, ?_⟩ <;>
        simp [cancelar_pedido, finalizar_pedido, adicionar_item_pedido, visualizar_pedido,
          hfind, hc]

/-- A standing order used by several witnesses: order 1, owned by user 5. -/
def pedido1 : Pedido := { id := 1, status := "PENDENTE", usuario := 5, preco := 0 }

/-- A one-order store used by several witnesses. -/
def dbPedido1 : DB :=
  { usuarios := [u5, u9, adm], pedidos := [pedido1], itens := [],
    nextUsuarioId := 10, nextPedidoId := 2, nextItemId := 1 }

/-- Witness for C4: in `dbPedido1`, the stranger user 9 gets `notFound` on a
missing order id even though they are unauthorized, gets `unauthorized` on
order 1 with the store unchanged, and the owner (user 5) succeeds. -/
theorem c4_witness :
    cancelar_pedido dbPedido1 2 u9 = (dbPedido1, .error .notFound) ∧
    cancelar_pedido dbPedido1 1 u9 = (dbPedido1, .error .unauthorized) ∧
    (∃ r, (cancelar_pedido dbPedido1 1 u5).2 = .ok r) ∧
    (∃ r, (finalizar_pedido dbPedido1 1 adm).2 = .ok r) := by
  refine ⟨((c4_autorizacao_pedido dbPedido1 2 u9).1 (by rfl)).1,
    (((c4_autorizacao_pedido dbPedido1 1 u9).2 pedido1 (by rfl)).1 (by rfl) (by decide)).1,
    (((c4_autorizacao_pedido dbPedido1 1 u5).2 pedido1 (by rfl)).2 (by right; rfl)).1,
    (((c4_autorizacao_pedido dbPedido1 1 adm).2 pedido1 (by rfl)).2 (by left; rfl)).2.1⟩

/-- C7: the ledger places no restriction on status transitions — for every
existing order, whatever its current status (including `"CANCELADO"` and
`"FINALIZADO"`), an authorized cancel sets the status to `"CANCELADO"` and an
authorized finalize sets it to `"FINALIZADO"`. -/
theorem c7_transicoes_livres (db : DB) (idp : Int) (u : Usuario) (pedido : Pedido)
    (hfind : db.pedidos.find? (fun p => p.id == idp) = some pedido)
    (hauth : u.admin = true ∨ u.id = pedido.usuario) :
    (∃ db2, cancelar_pedido db idp u = (db2, .ok { pedido with status := "CANCELADO" }) ∧
      ∀ p ∈ db2.pedidos, (p.id == idp) = true → p.status = "CANCELADO") ∧
    (∃ db2, finalizar_pedido db idp u = (db2, .ok { pedido with status := "FINALIZADO" }) ∧
      ∀ p ∈ db2.pedidos, (p.id == idp) = true → p.status = "FINALIZADO") := by
  constructor
  · refine ⟨atualizarStatus db idp "CANCELADO", ?_, ?_⟩
    · simp [cancelar_pedido, hfind, cond_negacao_false u pedido hauth]
    · intro p hp
      obtain ⟨p0, _, rfl⟩ := List.mem_map.mp hp
      by_cases h : (p0.id == idp) = true <;> simp_all
  · refine ⟨atualizarStatus db idp "FINALIZADO", ?_, ?_⟩
    · simp [finalizar_pedido, hfind, cond_negacao_false u pedido hauth]
    · intro p hp
      obtain ⟨p0, _, rfl⟩ := List.mem_map.mp hp
      by_cases h : (p0.id == idp) = true <;> simp_all

/-- A store whose only order is already finalized, for the C7 witness. -/
def dbFinalizado : DB :=
  { usuarios := [u5], pedidos := [{ id := 1, status := "FINALIZADO", usuario := 5, preco := 0 }],
    itens := [], nextUsuarioId := 6, nextPedidoId := 2, nextItemId := 1 }

/-- Witness for C7: the owner cancels an already-`"FINALIZADO"` order and
finalizes it again; nothing stops either transition. -/
theorem c7_witness :
    (∃ db2, cancelar_pedido dbFinalizado 1 u5
        = (db2, .ok { id := 1, status := "CANCELADO", usuario := 5, preco := 0 }) ∧
      ∀ p ∈ db2.pedidos, (p.id == (1 : Int)) = true → p.status = "CANCELADO") ∧
    (∃ db2, finalizar_pedido dbFinalizado 1 u5
        = (db2, .ok { id := 1, status := "FINALIZADO", usuario := 5, preco := 0 }) ∧
      ∀ p ∈ db2.pedidos, (p.id == (1 : Int)) = true → p.status = "FINALIZADO") :=
  c7_transicoes_livres dbFinalizado 1 u5
    { id := 1, status := "FINALIZADO", usuario := 5, preco := 0 } (by rfl) (by right; rfl)

/-- C5: `autenticar_usuario` yields `none` both when no user with the email
exists and when the stored hash does not verify against the password; the two
failure runs are indistinguishable by response shape — any two failing runs
return equal values; on a verifying password it yields the user row. -/
theorem c5_autenticar_indistinguivel (verify : String → String → Bool) (db : DB)
    (email senha : String) :
    (db.usuarios.find? (fun u => u.email == email) = none →
      autenticar_usuario verify db email senha = none) ∧
    (∀ u, db.usuarios.find? (fun v => v.email == email) = some u →
      verify senha u.senha = false →
      autenticar_usuario verify db email senha = none) ∧
    (∀ u, db.usuarios.find? (fun v => v.email == email) = some u →
      verify senha u.senha = true →
      autenticar_usuario verify db email senha = some u) ∧
    (∀ (verify2 : String → String → Bool) (db2 : DB) (e2 s2 : String),
      autenticar_usuario verify db email senha = none →
      autenticar_usuario verify2 db2 e2 s2 = none →
      autenticar_usuario verify db email senha = autenticar_usuario verify2 db2 e2 s2) := by
  refine ⟨fun h => ?_, fun u hf hv => ?_, fun u hf hv => ?_, fun v2 d2 e2 s2 h1 h2 => ?_⟩
  · simp [autenticar_usuario, h]
  · simp [autenticar_usuario, hf, hv]
  · simp [autenticar_usuario, hf, hv]
  · rw [h1, h2]

/-- A stand-in for `bcrypt_context.verify`: the hash matches exactly when it
is the image of the password under the stand-in `bcrypt_context.hash`. -/
def verify0 (senha hash0 : String) : Bool := hash0 == "bcrypt:" ++ senha

/-- A registered user whose password is "1234", for the C5 witness. -/
def ana : Usuario :=
  { id := 11, nome := "ana", email := "ana@pizza", senha := "bcrypt:1234",
    ativo := true, admin := false }

/-- The credential store holding only `ana`, for the C5 witness. -/
def dbAuth : DB :=
  { usuarios := [ana], pedidos := [], itens := [],
    nextUsuarioId := 12, nextPedidoId := 1, nextItemId := 1 }

/-- Witness for C5: the unknown-email run and the wrong-password run both
answer `none` and are equal; the correct password answers `ana`'s row. -/
theorem c5_witness :
    autenticar_usuario verify0 dbAuth "ninguem@pizza" "1234" = none ∧
    autenticar_usuario verify0 dbAuth "ana@pizza" "errada" = none ∧
    autenticar_usuario verify0 dbAuth "ninguem@pizza" "1234"
      = autenticar_usuario verify0 dbAuth "ana@pizza" "errada" ∧
    autenticar_usuario verify0 dbAuth "ana@pizza" "1234" = some ana := by
  have h1 := (c5_autenticar_indistinguivel verify0 dbAuth "ninguem@pizza" "1234").1 (by rfl)
  have h2 := (c5_autenticar_indistinguivel verify0 dbAuth "ana@pizza" "errada").2.1 ana
    (by rfl) (by rfl)
  have h3 := (c5_autenticar_indistinguivel verify0 dbAuth "ninguem@pizza" "1234").2.2.2
    verify0 dbAuth "ana@pizza" "errada" h1 h2
  have h4 := (c5_autenticar_indistinguivel verify0 dbAuth "ana@pizza" "1234").2.2.1 ana
    (by rfl) (by rfl)
  exact ⟨h1, h2, h3, h4⟩

/-- C8: a token issued at time `t` with lifetime `L` embeds the subject
`str(user id)` and the absolute expiration `t + L`; validating it strictly
before `t + L` succeeds and yields that subject, and validating it at or
after `t + L` fails with `Expired`. -/
theorem c8_token_validade (cfg : TokenCfg) (uid : Int) (L t t2 : Int) :
    (criar_token cfg uid t L).sub = toString uid ∧
    (criar_token cfg uid t L).exp = t + L ∧
    (t2 < t + L → validar_token cfg (criar_token cfg uid t L) t2 = .ok (toString uid)) ∧
    (t + L ≤ t2 → validar_token cfg (criar_token cfg uid t L) t2 = .error .expired) := by
  refine ⟨rfl, rfl, fun h => ?_, fun h => ?_⟩
  · simp [validar_token, criar_token]
    omega
  · simp [validar_token, criar_token]
    omega

/-- The process-wide token configuration, for the C8 witness. -/
def cfg0 : TokenCfg := { secret_key := "segredo", algorithm := "HS256" }

/-- Witness for C8: a token for user 5 issued at time 100 with lifetime 60
validates at time 159 yielding subject "5", and is expired at time 160. -/
theorem c8_witness :
    validar_token cfg0 (criar_token cfg0 5 100 60) 159 = .ok "5" ∧
    validar_token cfg0 (criar_token cfg0 5 100 60) 160 = .error .expired :=
  ⟨(c8_token_validade cfg0 5 60 100 159).2.2.1 (by decide),
   (c8_token_validade cfg0 5 60 100 160).2.2.2 (by decide)⟩

/-- A stand-in for `bcrypt_context.hash`, matching `verify0`. -/
def hash0 (senha : String) : String := "bcrypt:" ++ senha

/-- An INACTIVE user holding the email `"ana@pizza"`, for the C6
counterexample. -/
def anaInativa : Usuario :=
  { id := 1, nome := "ana", email := "ana@pizza", senha := "bcrypt:1234",
    ativo := false, admin := false }

/-- The store holding only the inactive `anaInativa`, for C6. -/
def dbInativa : DB :=
  { usuarios := [anaInativa], pedidos := [], itens := [],
    nextUsuarioId := 2, nextPedidoId := 1, nextItemId := 1 }

/-- Counterexample to C6 as stated: registration is REFUSED with
`duplicateEmail` even though no ACTIVE record with the email exists — the
source query (`auth_routes.py` line 66) has no `ativo` filter, so an
inactive record already blocks the email. -/
theorem c6_counterexample :
    (criar_conta hash0 dbInativa "ana" "ana@pizza" "nova" true false).2
      = .error .duplicateEmail ∧
    (∀ u ∈ dbInativa.usuarios, ¬(u.email = "ana@pizza" ∧ u.ativo = true)) := by
  constructor
  · rfl
  · intro u hu
    simp [dbInativa, anaInativa] at hu
    simp [hu]

/-- C6 (amended): registration fails with `duplicateEmail` exactly when ANY
record — active or not — with the given email exists, and on failure the
store is unchanged; on success the new row carries the salted one-way hash
of the password, never the plaintext; a second registration with the same
email fails and the store retains exactly one record for that email. -/
theorem c6_criar_conta_amended (hashSenha : String → String) (db : DB)
    (nome email senha : String) (ativo admin : Bool) :
    ((criar_conta hashSenha db nome email senha ativo admin).2 = .error .duplicateEmail ↔
      (db.usuarios.find? (fun u => u.email == email)).isSome = true) ∧
    ((db.usuarios.find? (fun u => u.email == email)).isSome = true →
      criar_conta hashSenha db nome email senha ativo admin = (db, .error .duplicateEmail)) ∧
    (db.usuarios.find? (fun u => u.email == email) = none →
      ∃ novo : Usuario,
        criar_conta hashSenha db nome email senha ativo admin
          = ({ db with
                usuarios := db.usuarios ++ [novo]
                nextUsuarioId := db.nextUsuarioId + 1 }, .ok ()) ∧
        novo.email = email ∧ novo.senha = hashSenha senha ∧
        novo.nome = nome ∧ novo.ativo = ativo ∧ novo.admin = admin) ∧
    (∀ (nome2 senha2 : String) (ativo2 admin2 : Bool),
      db.usuarios.find? (fun u => u.email == email) = none →
      (criar_conta hashSenha
          (criar_conta hashSenha db nome email senha ativo admin).1
          nome2 email senha2 ativo2 admin2).2 = .error .duplicateEmail ∧
      ((criar_conta hashSenha db nome email senha ativo admin).1.usuarios.filter
          (fun u => u.email == email)).length = 1) := by
  refine ⟨?_, ?_, ?_, ?_⟩
  · constructor
    · intro h
      cases hf : db.usuarios.find? (fun u => u.email == email) with
      | none => simp [criar_conta, hf] at h
      | some u => simp
    · intro h
      obtain ⟨u, hu⟩ := Option.isSome_iff_exists.mp h
      simp [criar_conta, hu]
  · intro h
    obtain ⟨u, hu⟩ := Option.isSome_iff_exists.mp h
    simp [criar_conta, hu]
  · intro hf
    exact ⟨{ id := db.nextUsuarioId, nome := nome, email := email,
             senha := hashSenha senha, ativo := ativo, admin := admin },
           by simp [criar_conta, hf], rfl, rfl, rfl, rfl, rfl⟩
  · intro nome2 senha2 ativo2 admin2 hf
    have hnone : ∀ u ∈ db.usuarios, ¬(u.email == email) = true :=
      List.find?_eq_none.mp hf
    have husers : (criar_conta hashSenha db nome email senha ativo admin).1.usuarios
        = db.usuarios ++
          [{ id := db.nextUsuarioId
             nome := nome
             email := email
             senha := hashSenha senha
             ativo := ativo
             admin := admin }] := by
      simp [criar_conta, hf]
    constructor
    · have hfind2 : (criar_conta hashSenha db nome email senha ativo admin).1.usuarios.find?
          (fun u => u.email == email)
          = some { id := db.nextUsuarioId
                   nome := nome
                   email := email
                   senha := hashSenha senha
                   ativo := ativo
                   admin := admin } := by
        rw [husers, List.find?_append, hf]
        simp
      revert hfind2
      generalize (criar_conta hashSenha db nome email senha ativo admin).1 = A
      intro hfind2
      simp [criar_conta, hfind2]
    · rw [husers, List.filter_append]
      have hvazio : db.usuarios.filter (fun u => u.email == email) = [] :=
        List.filter_eq_nil_iff.mpr hnone
      simp [hvazio]

/-- Witness for C6: registering `"bia@pizza"` in the empty-email store
`dbAuth` succeeds storing the hash `"bcrypt:segredo"`, and registering it a
second time fails leaving exactly one `"bia@pizza"` record. -/
theorem c6_witness :
    (∃ novo : Usuario,
      criar_conta hash0 dbAuth "bia" "bia@pizza" "segredo" true false
        = ({ dbAuth with
              usuarios := dbAuth.usuarios ++ [novo]
              nextUsuarioId := dbAuth.nextUsuarioId + 1 }, .ok ()) ∧
      novo.email = "bia@pizza" ∧ novo.senha = hash0 "segredo" ∧
      novo.nome = "bia" ∧ novo.ativo = true ∧ novo.admin = false) ∧
    (criar_conta hash0
        (criar_conta hash0 dbAuth "bia" "bia@pizza" "segredo" true false).1
        "bia" "bia@pizza" "outra" true false).2 = .error .duplicateEmail ∧
    ((criar_conta hash0 dbAuth "bia" "bia@pizza" "segredo" true false).1.usuarios.filter
        (fun u => u.email == "bia@pizza")).length = 1 := by
  have hfind : dbAuth.usuarios.find? (fun u => u.email == "bia@pizza") = none := by rfl
  have h3 := (c6_criar_conta_amended hash0 dbAuth "bia" "bia@pizza" "segredo" true false).2.2.1
    hfind
  have h4 := (c6_criar_conta_amended hash0 dbAuth "bia" "bia@pizza" "segredo" true false).2.2.2
    "bia" "outra" true false hfind
  exact ⟨h3, h4.1, h4.2⟩

/-- Erasing the first `q`-element of a list does not change a filter that the
erased element fails. -/
lemma filter_eraseP_primeiro {α : Type} (q pred : α → Bool) (l : List α) (e : α)
    (hfind : l.find? q = some e) (hpred : pred e = false) :
    (l.eraseP q).filter pred = l.filter pred := by
  induction l with
  | nil => simp at hfind
  | cons x xs ih =>
    by_cases hq : q x = true
    · rw [List.find?_cons_of_pos _ hq] at hfind
      cases hfind
      rw [List.eraseP_cons_of_pos hq]
      simp [List.filter_cons, hpred]
    · rw [List.find?_cons_of_neg _ hq] at hfind
      rw [List.eraseP_cons_of_neg hq]
      simp [List.filter_cons, ih hfind]

/-- Recomputation does not touch the item table. -/
lemma pedidoItens_calcular_preco (db : DB) (pid j : Int) :
    pedidoItens (calcular_preco db pid) j = pedidoItens db j := rfl

/-- Master preservation lemma: if the mutated store `dbA` keeps the order
table of `db` and keeps the item set of every order other than `pid`, then
recomputing order `pid` restores the pricing invariant. -/
lemma consistente_apos_recalculo (db dbA : DB) (pid : Int)
    (hped : dbA.pedidos = db.pedidos)
    (hfiltro : ∀ j : Int, j ≠ pid → pedidoItens dbA j = pedidoItens db j)
    (hc : Consistente db) :
    Consistente (calcular_preco dbA pid) := by
  intro p hp
  rw [pedidoItens_calcular_preco]
  simp only [calcular_preco] at hp
  obtain ⟨p0, hp0, rfl⟩ := List.mem_map.mp hp
  rw [hped] at hp0
  by_cases hid : (p0.id == pid) = true
  · have hid' : p0.id = pid := beq_iff_eq.mp hid
    simp [hid, hid']
  · have hne : p0.id ≠ pid := by simpa using hid
    rw [if_neg hid]
    rw [hfiltro p0.id hne]
    exact hc p0 hp0

/-- Appending an item belonging to order `pid` does not change the item set
of any other order. -/
lemma filter_append_item (l : List ItemPedido) (x : ItemPedido) (pid j : Int)
    (hx : x.pedido = pid) (hj : j ≠ pid) :
    (l ++ [x]).filter (fun i => i.pedido == j) = l.filter (fun i => i.pedido == j) := by
  rw [List.filter_append]
  have hfalse : (x.pedido == j) = false :=
    beq_eq_false_iff_ne.mpr (by rw [hx]; exact fun e => hj e.symm)
  simp [List.filter_cons, hfalse]

/-- After a successful `adicionar_item_pedido` the pricing invariant holds in
the resulting store. -/
lemma adicionar_preserva_consistencia (db : DB) (idp : Int) (s : ItemPedidoSchema)
    (u : Usuario) (db2 : DB) (r : Int × ℚ)
    (hc : Consistente db)
    (h : adicionar_item_pedido db idp s u = (db2, .ok r)) :
    Consistente db2 := by
  cases hfind : db.pedidos.find? (fun p => p.id == idp) with
  | none => simp [adicionar_item_pedido, hfind] at h
  | some pedido =>
    by_cases hcond : (!u.admin && u.id != pedido.usuario) = true
    · simp [adicionar_item_pedido, hfind, hcond] at h
    · have hcond' : (!u.admin && u.id != pedido.usuario) = false := by simpa using hcond
      simp only [adicionar_item_pedido, hfind, hcond', Bool.false_eq_true, if_false,
        Prod.mk.injEq] at h
      obtain ⟨h1, _⟩ := h
      subst h1
      refine consistente_apos_recalculo db _ idp rfl ?_ hc
      intro j hj
      simp only [pedidoItens]
      exact filter_append_item _ _ idp j rfl hj

/-- After a successful `remover_item_pedido` whose removed item carries its
own id as its parent-order id, the pricing invariant holds in the resulting
store. -/
lemma remover_preserva_consistencia (db : DB) (k : Int) (u : Usuario) (db2 : DB)
    (r : Nat × Pedido) (item : ItemPedido)
    (hc : Consistente db)
    (hitem : db.itens.find? (fun i => i.id == k) = some item)
    (hpai : item.pedido = k)
    (h : remover_item_pedido db k u = (db2, .ok r)) :
    Consistente db2 := by
  cases hped : db.pedidos.find? (fun p => p.id == k) with
  | none => simp [remover_item_pedido, hitem, hped] at h
  | some pedido =>
    have hpid : pedido.id = k := by simpa using List.find?_some hped
    by_cases hcond : (!u.admin && u.id != pedido.usuario) = true
    · simp [remover_item_pedido, hitem, hped, hcond] at h
    · have hcond' : (!u.admin && u.id != pedido.usuario) = false := by simpa using hcond
      simp only [remover_item_pedido, hitem, hped, hcond', Bool.false_eq_true, if_false,
        Prod.mk.injEq] at h
      obtain ⟨h1, _⟩ := h
      subst h1
      refine consistente_apos_recalculo db _ pedido.id rfl ?_ hc
      intro j hj
      simp only [pedidoItens]
      refine filter_eraseP_primeiro _ _ _ item hitem ?_
      show (item.pedido == j) = false
      rw [hpai]
      exact beq_eq_false_iff_ne.mpr (fun e => hj (hpid.trans e).symm)

/-- The owner of the two orders in the C2/C3 counterexample state. -/
def u7 : Usuario :=
  { id := 7, nome := "carlos", email := "u7@pizza", senha := "h7", ativo := true, admin := false }

/-- Order 1, owner 7, price 5 — the parent of `itemX`. -/
def pedidoA : Pedido := { id := 1, status := "PENDENTE", usuario := 7, preco := 5 }

/-- Order 3, owner 7, price 0, no items — its id collides with `itemX.id`. -/
def pedidoB : Pedido := { id := 3, status := "PENDENTE", usuario := 7, preco := 0 }

/-- Item 3 of order 1: one unit at price 5. -/
def itemX : ItemPedido :=
  { id := 3, quantidade := 1, sabor := "mussarela", tamanho := "grande",
    preco_unitario := 5, pedido := 1 }

/-- A consistent store in which item 3 belongs to order 1 while an unrelated
order 3 also exists. -/
def dbC2 : DB :=
  { usuarios := [u7], pedidos := [pedidoA, pedidoB], itens := [itemX],
    nextUsuarioId := 8, nextPedidoId := 4, nextItemId := 4 }

/-- The store `dbC2` after removing item 3: the item is gone, order 3 (id =
item id) was recomputed, order 1 (the true parent) still holds price 5. -/
def dbC2After : DB :=
  { usuarios := [u7], pedidos := [pedidoA, pedidoB], itens := [],
    nextUsuarioId := 8, nextPedidoId := 4, nextItemId := 4 }

/-- Counterexample to C2 as stated: `dbC2` satisfies the pricing invariant,
removing item 3 succeeds, and the resulting store violates the invariant —
order 1 keeps price 5 with no items left, because the handler recomputed
order 3 (found by the item's id) instead of the parent order 1. -/
theorem c2_counterexample :
    Consistente dbC2 ∧
    remover_item_pedido dbC2 3 u7 = (dbC2After, .ok (0, pedidoB)) ∧
    ¬ Consistente dbC2After := by
  refine ⟨?_, ?_, ?_⟩
  · intro p hp
    simp only [dbC2, List.mem_cons, List.not_mem_nil, or_false] at hp
    rcases hp with rfl | rfl
    · simp [pedidoA, somaItens, pedidoItens, dbC2, itemX, List.filter]
    · simp [pedidoB, somaItens, pedidoItens, dbC2, itemX, List.filter]
  · simp [remover_item_pedido, dbC2, dbC2After, u7, pedidoA, pedidoB, itemX,
      calcular_preco, pedidoItens, somaItens, atualizarStatus, List.find?, List.eraseP,
      List.filter, List.map, List.sum]
  · intro h
    have hA := h pedidoA (by simp [dbC2After])
    simp [pedidoA, somaItens, pedidoItens, dbC2After, List.filter] at hA

/-- C2 (amended): after every successful add-item the pricing invariant is
preserved for all orders; after a successful remove-item it is preserved
provided the removed item's parent-order id equals the item's own id (the
order the handler actually queries and recomputes) — in general a remove may
leave the removed item's true parent order with a stale total. -/
theorem c2_invariante_apos_mutacao :
    (∀ (db : DB) (idp : Int) (s : ItemPedidoSchema) (u : Usuario) (db2 : DB) (r : Int × ℚ),
      Consistente db → adicionar_item_pedido db idp s u = (db2, .ok r) → Consistente db2) ∧
    (∀ (db : DB) (k : Int) (u : Usuario) (db2 : DB) (r : Nat × Pedido) (item : ItemPedido),
      Consistente db → db.itens.find? (fun i => i.id == k) = some item → item.pedido = k →
      remover_item_pedido db k u = (db2, .ok r) → Consistente db2) :=
  ⟨fun db idp s u db2 r hc h => adicionar_preserva_consistencia db idp s u db2 r hc h,
   fun db k u db2 r item hc hi hp h => remover_preserva_consistencia db k u db2 r item hc hi hp h⟩

/-- Item 1 of order 1 (its id equals its parent-order id), for witnesses. -/
def itemW : ItemPedido :=
  { id := 1, quantidade := 1, sabor := "portuguesa", tamanho := "media",
    preco_unitario := 5, pedido := 1 }

/-- Order 1, owner 5, price 5, for witnesses. -/
def pedidoW : Pedido := { id := 1, status := "PENDENTE", usuario := 5, preco := 5 }

/-- A consistent one-order one-item store, for witnesses. -/
def dbW : DB :=
  { usuarios := [u5], pedidos := [pedidoW], itens := [itemW],
    nextUsuarioId := 6, nextPedidoId := 2, nextItemId := 2 }

/-- Witness for C2: in `dbW`, adding an item (2 units at price 3) and
removing item 1 (whose id equals its parent-order id) both land in stores
satisfying the pricing invariant. -/
theorem c2_witness :
    Consistente
      { usuarios := [u5],
        pedidos := [{ id := 1, status := "PENDENTE", usuario := 5, preco := 11 }],
        itens := [itemW,
          { id := 2, quantidade := 2, sabor := "quatro queijos", tamanho := "grande",
            preco_unitario := 3, pedido := 1 }],
        nextUsuarioId := 6, nextPedidoId := 2, nextItemId := 3 } ∧
    Consistente
      { usuarios := [u5],
        pedidos := [{ id := 1, status := "PENDENTE", usuario := 5, preco := 0 }],
        itens := [],
        nextUsuarioId := 6, nextPedidoId := 2, nextItemId := 2 } := by
  have hc : Consistente dbW := by
    intro p hp
    simp only [dbW, List.mem_cons, List.not_mem_nil, or_false] at hp
    rcases hp with rfl
    simp [pedidoW, somaItens, pedidoItens, dbW, itemW, List.filter]
  constructor
  · refine c2_invariante_apos_mutacao.1 dbW 1
      { quantidade := 2, sabor := "quatro queijos", tamanho := "grande", preco_unitario := 3 }
      u5 _ (2, 11) hc ?_
    simp [adicionar_item_pedido, dbW, u5, pedidoW, itemW, calcular_preco, pedidoItens,
      somaItens, List.find?, List.filter, List.map, List.sum]
    norm_num
  · refine c2_invariante_apos_mutacao.2 dbW 1 u5 _
      (0, { id := 1, status := "PENDENTE", usuario := 5, preco := 0 }) itemW hc
      (by rfl) (by rfl) ?_
    simp [remover_item_pedido, dbW, u5, pedidoW, itemW, calcular_preco, pedidoItens,
      somaItens, List.find?, List.eraseP, List.filter, List.map, List.sum]

/-- Counterexample to C3 as stated: removing item 3 — whose parent is order
1 — succeeds, but the handler recomputes and returns order 3 (found by the
ITEM's id): the parent order 1 is left with the stale persisted total 5
although it has no items left (their sum is 0). -/
theorem c3_counterexample :
    itemX.pedido = 1 ∧
    remover_item_pedido dbC2 3 u7 = (dbC2After, .ok (0, pedidoB)) ∧
    pedidoA ∈ dbC2After.pedidos ∧ pedidoA.id = 1 ∧ pedidoA.preco = 5 ∧
    pedidoItens dbC2After 1 = [] ∧ somaItens [] = 0 ∧ (5 : ℚ) ≠ 0 := by
  refine ⟨rfl, ?_, by simp [dbC2After], rfl, rfl, ?_, rfl, by norm_num⟩
  · simp [remover_item_pedido, dbC2, dbC2After, u7, pedidoA, pedidoB, itemX,
      calcular_preco, pedidoItens, somaItens, List.find?, List.eraseP,
      List.filter, List.map, List.sum]
  · simp [pedidoItens, dbC2After, List.filter]

/-- C3 (amended): `remover_item_pedido` fails with `notFound` exactly when no
item with the given id exists.  When the item exists, the order consulted is
the one whose id equals the ITEM's id: if no such order exists the operation
dies with the unhandled error; if it exists and the caller is authorized on
it, the item is deleted and it is THAT order — not necessarily the item's
parent — whose total is recomputed and persisted and whose remaining item
count and updated record are returned. -/
theorem c3_remover_amended (db : DB) (k : Int) (u : Usuario) :
    ((remover_item_pedido db k u).2 = .error .notFound ↔
      db.itens.find? (fun i => i.id == k) = none) ∧
    (∀ item, db.itens.find? (fun i => i.id == k) = some item →
      db.pedidos.find? (fun p => p.id == k) = none →
      remover_item_pedido db k u = (db, .error .noneError)) ∧
    (∀ item pedido, db.itens.find? (fun i => i.id == k) = some item →
      db.pedidos.find? (fun p => p.id == k) = some pedido →
      u.admin = true ∨ u.id = pedido.usuario →
      ∃ db2 n rec, remover_item_pedido db k u = (db2, .ok (n, rec)) ∧
        db2.itens = db.itens.eraseP (fun i => i.id == k) ∧
        pedido.id = k ∧
        (∀ p ∈ db2.pedidos, (p.id == k) = true → p.preco = somaItens (pedidoItens db2 k)) ∧
        n = (pedidoItens db2 k).length ∧
        rec.id = pedido.id ∧ rec.usuario = pedido.usuario ∧
        rec.preco = somaItens (pedidoItens db2 k)) := by
  refine ⟨⟨?_, ?_⟩, ?_, ?_⟩
  · intro h
    cases hi : db.itens.find? (fun i => i.id == k) with
    | none => rfl
    | some item =>
      cases hp : db.pedidos.find? (fun p => p.id == k) with
      | none => simp [remover_item_pedido, hi, hp] at h
      | some pedido =>
        by_cases hcond : (!u.admin && u.id != pedido.usuario) = true
        · simp [remover_item_pedido, hi, hp, hcond] at h
        · have hcond' : (!u.admin && u.id != pedido.usuario) = false := by simpa using hcond
          simp [remover_item_pedido, hi, hp, hcond'] at h
  · intro h
    simp [remover_item_pedido, h]
  · intro item hi hp
    simp [remover_item_pedido, hi, hp]
  · intro item pedido hi hp hauth
    have hcond := cond_negacao_false u pedido hauth
    have hpid : pedido.id = k := by simpa using List.find?_some hp
    refine ⟨calcular_preco { db with itens := db.itens.eraseP (fun i => i.id == k) } pedido.id,
      (pedidoItens { db with itens := db.itens.eraseP (fun i => i.id == k) } pedido.id).length,
      { pedido with preco := somaItens (pedidoItens { db with itens := db.itens.eraseP (fun i => i.id == k) } pedido.id) },
      ?_, rfl, hpid, ?_, ?_, rfl, rfl, ?_⟩
    · simp [remover_item_pedido, hi, hp, hcond]
    · intro p hpmem hpk
      rw [pedidoItens_calcular_preco]
      simp only [calcular_preco] at hpmem
      obtain ⟨p0, hp0, rfl⟩ := List.mem_map.mp hpmem
      by_cases hid : (p0.id == pedido.id) = true
      · rw [if_pos hid]
        simp [hpid]
      · rw [if_neg hid] at hpk ⊢
        rw [hpid] at hid
        exact absurd hpk hid
    · simp [pedidoItens_calcular_preco, hpid]
    · simp [pedidoItens_calcular_preco, hpid]

/-- Witness for C3: removing item 1 from `dbW` (where the queried order id 1
happens to be the item's parent) deletes the item, recomputes order 1's
total and answers with order 1's remaining count and record. -/
theorem c3_witness :
    ∃ db2 n rec, remover_item_pedido dbW 1 u5 = (db2, .ok (n, rec)) ∧
      db2.itens = dbW.itens.eraseP (fun i => i.id == (1 : Int)) ∧
      pedidoW.id = 1 ∧
      (∀ p ∈ db2.pedidos, (p.id == (1 : Int)) = true →
        p.preco = somaItens (pedidoItens db2 1)) ∧
      n = (pedidoItens db2 1).length ∧
      rec.id = pedidoW.id ∧ rec.usuario = pedidoW.usuario ∧
      rec.preco = somaItens (pedidoItens db2 1) :=
  (c3_remover_amended dbW 1 u5).2.2 itemW pedidoW (by rfl) (by rfl) (by right; rfl)
